import Mathlib

/-!
Verification of `video/frame_cadence_adapter.cc` (WebRTC frame cadence
adapter): a shallow embedding of the zero-hertz cadence state machine
(`ZeroHertzAdapterMode`) and of the top-level adapter
(`FrameCadenceAdapterImpl`), with theorems about layer-convergence
tracking, repeat scheduling, frame-generation cancellation, the
frames-scheduled counter and the one-shot constraint metrics.

Conventions of the embedding:
* `TimeDelta` carries microseconds (the C++ `TimeDelta` is an `int64_t`
  microsecond count); `ms` rounds to the nearest millisecond as the C++
  unit conversion does.
* Side effects (frames handed to the encoder callback, tasks posted on the
  task queue) are returned explicitly in step structures.
* Task-queue and clock plumbing (the `post_time` argument, the safety
  flag) is threaded through but not interpreted: the claims under study
  are about per-call state transformations and op-sequence traces.
-/

namespace Webrtc

/-- Modelled from the spec: `api/units/time_delta.h` is not part of the
sources. A `TimeDelta` is a signed microsecond count; `ms` converts with
rounding to nearest as the C++ unit base does. -/
structure TimeDelta where
  us : Int
deriving DecidableEq, Repr

/-- Millisecond value of a `TimeDelta` (round to nearest; the adapter only
converts non-negative delays, for which floor of `(2 us + 1000) / 2000`
is exactly round-to-nearest). -/
def TimeDelta.ms (t : TimeDelta) : Int := Int.fdiv (2 * t.us + 1000) 2000

/-- `TimeDelta::Seconds(n)`. -/
def TimeDelta.Seconds (n : Int) : TimeDelta := ⟨n * 1000000⟩

/-- `TimeDelta::Millis(n)`. -/
def TimeDelta.Millis (n : Int) : TimeDelta := ⟨n * 1000⟩

/-- `TimeDelta / double`, rounding the microsecond count to nearest. The
divisor is the configured `max_fps`: a C++ double whose value in every
configuration of the spec is a whole number of frames per second, so it is
modelled as `Int` (for positive operands, floor of `(2 us + d) / (2 d)` is
exactly round-to-nearest). -/
def TimeDelta.div (t : TimeDelta) (d : Int) : TimeDelta :=
  ⟨Int.fdiv (2 * t.us + d) (2 * d)⟩

/-- Modelled from the spec: the frame's "update rectangle" metadata
(`VideoFrame::UpdateRect` of `api/video/video_frame.h`, not part of the
sources): which pixel region changed since the previous frame. -/
structure UpdateRect where
  offset_x : Int
  offset_y : Int
  width : Int
  height : Int
deriving DecidableEq, Repr

/-- `UpdateRect::MakeEmptyUpdate`: all-zero rectangle, "no pixels changed". -/
def UpdateRect.MakeEmptyUpdate : UpdateRect := ⟨0, 0, 0, 0⟩

/-- Modelled from the spec: the opaque `VideoFrame` (external type) as the
adapter reads and writes it — an optional presentation timestamp in
microseconds, an optional NTP timestamp in milliseconds (both `int64_t`,
0 meaning unset), and the update rectangle. -/
structure VideoFrame where
  timestamp_us : Int
  ntp_time_ms : Int
  update_rect : UpdateRect
deriving DecidableEq, Repr

/-- Modelled from the spec: `ZeroHertzModeParams` of
`video/frame_cadence_adapter.h` (not part of the sources):
`\x7b num_simulcast_layers \x7d`. -/
structure ZeroHertzModeParams where
  num_simulcast_layers : Nat
deriving DecidableEq, Repr

/-- Modelled from the spec: `VideoTrackSourceConstraints` (external header):
optional min and max fps. The C++ fields are doubles; every value the spec
and the adapter's comparisons deal in is a whole frames-per-second count,
modelled as `Int`. -/
structure VideoTrackSourceConstraints where
  min_fps : Option Int
  max_fps : Option Int
deriving DecidableEq, Repr

/-- `ZeroHertzAdapterMode::SpatialLayerTracker` (lines 121-125): unset means
the layer is disabled, otherwise the value is the layer's quality
convergence status. -/
structure SpatialLayerTracker where
  quality_converged : Option Bool
deriving DecidableEq, Repr

/-- State of `ZeroHertzAdapterMode` (lines 141-163): the configured
`max_fps_` and derived `frame_delay_`, the frame queue, the generation
counter `current_frame_id_`, the `is_repeating_` bit and the per-layer
trackers. -/
structure ZeroHertzAdapterMode where
  max_fps : Int
  frame_delay : TimeDelta
  queued_frames : List VideoFrame
  current_frame_id : Int
  is_repeating : Bool
  layer_trackers : List SpatialLayerTracker
deriving DecidableEq, Repr

/-- Modelled from the spec:
`FrameCadenceAdapterInterface::kZeroHertzIdleRepeatRatePeriod` is declared
in `video/frame_cadence_adapter.h`, which is not part of the sources; the
spec gives it as a constant of about 1000 ms. -/
def kZeroHertzIdleRepeatRatePeriod : TimeDelta := TimeDelta.Millis 1000

/-- A delayed task body posted by `ZeroHertzAdapterMode`: the lambda of
`OnFrame` (lines 307-312) captures no frame id; the lambda of
`ScheduleRepeat` (lines 356-361) captures `frame_id` and `repeat_delay`. -/
inductive ZhTask where
  | processOnDelayedCadence : ZhTask
  | processRepeatedFrame (frame_id : Int) (scheduled_delay : TimeDelta) : ZhTask
deriving DecidableEq, Repr

/-- The frame id a task body captured, if any. -/
def ZhTask.capturedFrameId : ZhTask → Option Int
  | .processOnDelayedCadence => none
  | .processRepeatedFrame frame_id _ => some frame_id

/-- A `PostDelayedTask` call: the task body and the delay (in ms, as
`PostDelayedTask` receives it). -/
structure ZhPost where
  task : ZhTask
  delay_ms : Int
deriving DecidableEq, Repr

/-- Result of running one `ZeroHertzAdapterMode` member: the new state, the
frames handed to the encoder callback via `SendFrameNow` (in order), and
the delayed tasks posted (in order). -/
structure ZhStep where
  state : ZeroHertzAdapterMode
  sent : List VideoFrame
  posted : List ZhPost
deriving DecidableEq, Repr

/-- The `ZeroHertzAdapterMode` constructor (lines 238-250): `max_fps_` and
`frame_delay_ = TimeDelta::Seconds(1) / max_fps_` (line 148), empty queue,
`current_frame_id_ = 0`, `is_repeating_ = false`, and
`params.num_simulcast_layers` default-constructed (disabled) trackers. -/
def ZeroHertzAdapterMode.construct (max_fps : Int) (params : ZeroHertzModeParams) :
    ZeroHertzAdapterMode :=
  { max_fps := max_fps
    frame_delay := TimeDelta.div (TimeDelta.Seconds 1) max_fps
    queued_frames := []
    current_frame_id := 0
    is_repeating := false
    layer_trackers := List.replicate params.num_simulcast_layers ⟨none⟩ }

/-- `ZeroHertzAdapterMode::UpdateLayerQualityConvergence` (lines 252-261):
set the convergence bit only when the tracker currently has a value.
`spatial_index` is `int` in C++ with `RTC_DCHECK_LT(spatial_index, size)`;
modelled as `Nat` (out-of-range indices leave the state unchanged, matching
the guarded vector write never happening). -/
def ZeroHertzAdapterMode.UpdateLayerQualityConvergence
    (s : ZeroHertzAdapterMode) (spatial_index : Nat) (quality_converged : Bool) :
    ZeroHertzAdapterMode :=
  match s.layer_trackers[spatial_index]? with
  | some tracker =>
      if tracker.quality_converged.isSome then
        { s with layer_trackers :=
            s.layer_trackers.set spatial_index ⟨some quality_converged⟩ }
      else s
  | none => s

/-- `ZeroHertzAdapterMode::UpdateLayerStatus` (lines 263-281): on enable,
a disabled tracker becomes `some false` ("assume quality has not converged
until hearing otherwise"); an enabled tracker is left alone. On disable,
the tracker becomes `absl::nullopt`. -/
def ZeroHertzAdapterMode.UpdateLayerStatus
    (s : ZeroHertzAdapterMode) (spatial_index : Nat) (enabled : Bool) :
    ZeroHertzAdapterMode :=
  match s.layer_trackers[spatial_index]? with
  | some tracker =>
      if enabled then
        if tracker.quality_converged.isSome then s
        else
          { s with layer_trackers := s.layer_trackers.set spatial_index ⟨some false⟩ }
      else { s with layer_trackers := s.layer_trackers.set spatial_index ⟨none⟩ }
  | none => s

/-- The `absl::c_all_of` predicate of `ZeroHertzAdapterMode::ScheduleRepeat`
(lines 347-351): every tracker is disabled or converged. -/
def ZeroHertzAdapterMode.allOfTrackersConverged
    (layer_trackers : List SpatialLayerTracker) : Bool :=
  layer_trackers.all fun tracker =>
    !tracker.quality_converged.isSome || tracker.quality_converged.getD false

/-- `ZeroHertzAdapterMode::ScheduleRepeat` (lines 341-363): choose the
repeat delay from the convergence state and post one delayed task that
will run `ProcessRepeatedFrameOnDelayedCadence(frame_id, repeat_delay)`. -/
def ZeroHertzAdapterMode.ScheduleRepeat (s : ZeroHertzAdapterMode) (frame_id : Int) :
    List ZhPost :=
  let quality_converged := ZeroHertzAdapterMode.allOfTrackersConverged s.layer_trackers
  let repeat_delay :=
    if quality_converged then kZeroHertzIdleRepeatRatePeriod else s.frame_delay
  [⟨ZhTask.processRepeatedFrame frame_id repeat_delay, repeat_delay.ms⟩]

/-- `ZeroHertzAdapterMode::OnFrame` (lines 283-313): mark every enabled
layer unconverged, drop the stale repeat source when `is_repeating_`
(the deque then holds exactly one frame, `RTC_DCHECK` line 297), append
the new frame, bump `current_frame_id_`, clear `is_repeating_`, and post
the `ProcessOnDelayedCadence` task with delay `frame_delay_.ms()`. The
`post_time` and `frames_scheduled_for_processing` arguments are unused by
the body. -/
def ZeroHertzAdapterMode.OnFrame (s : ZeroHertzAdapterMode)
    (post_time : Int) (frames_scheduled_for_processing : Int) (frame : VideoFrame) :
    ZhStep :=
  let _ := post_time
  let _ := frames_scheduled_for_processing
  let layer_trackers := s.layer_trackers.map fun layer_tracker =>
    if layer_tracker.quality_converged.isSome then ⟨some false⟩ else layer_tracker
  let queued_frames :=
    if s.is_repeating then s.queued_frames.tail else s.queued_frames
  { state :=
      { s with
        layer_trackers := layer_trackers
        queued_frames := queued_frames ++ [frame]
        current_frame_id := s.current_frame_id + 1
        is_repeating := false }
    sent := []
    posted := [⟨ZhTask.processOnDelayedCadence, s.frame_delay.ms⟩] }

/-- `ZeroHertzAdapterMode::ProcessOnDelayedCadence` (lines 320-339): send
the front frame; with two or more frames queued just pop the front,
otherwise enter repeating mode and schedule a repeat for
`current_frame_id_`. The empty-queue case is excluded by
`RTC_DCHECK(!queued_frames_.empty())` and modelled as a no-op. -/
def ZeroHertzAdapterMode.ProcessOnDelayedCadence (s : ZeroHertzAdapterMode) : ZhStep :=
  match s.queued_frames with
  | [] => ⟨s, [], []⟩
  | front :: rest =>
    if rest.length > 0 then
      ⟨{ s with queued_frames := rest }, [front], []⟩
    else
      let s' := { s with is_repeating := true }
      ⟨s', [front], ZeroHertzAdapterMode.ScheduleRepeat s' s'.current_frame_id⟩

/-- `ZeroHertzAdapterMode::ProcessRepeatedFrameOnDelayedCadence`
(lines 365-396): return at once when `frame_id` is stale; otherwise clear
the front frame's update rectangle, shift `timestamp_us` by
`scheduled_delay.us()` when positive and `ntp_time_ms` by
`scheduled_delay.ms()` when non-zero (the C++ condition is the truthiness
test `if (frame.ntp_time_ms())`), send the adjusted frame (the deque still
holds it by reference) and schedule the next repeat. The empty-queue case
is excluded by the `RTC_DCHECK` on line 371 and modelled as a no-op. -/
def ZeroHertzAdapterMode.ProcessRepeatedFrameOnDelayedCadence
    (s : ZeroHertzAdapterMode) (frame_id : Int) (scheduled_delay : TimeDelta) :
    ZhStep :=
  if frame_id ≠ s.current_frame_id then ⟨s, [], []⟩
  else
    match s.queued_frames with
    | [] => ⟨s, [], []⟩
    | front :: rest =>
      let frame := { front with update_rect := UpdateRect.MakeEmptyUpdate }
      let frame :=
        if frame.timestamp_us > 0 then
          { frame with timestamp_us := frame.timestamp_us + scheduled_delay.us }
        else frame
      let frame :=
        if frame.ntp_time_ms ≠ 0 then
          { frame with ntp_time_ms := frame.ntp_time_ms + scheduled_delay.ms }
        else frame
      let s' := { s with queued_frames := frame :: rest }
      ⟨s', [frame], ZeroHertzAdapterMode.ScheduleRepeat s' frame_id⟩

/-- Which adapter mode `current_adapter_mode_` points at. -/
inductive AdapterModeTag where
  | passthrough
  | zeroHertz
deriving DecidableEq, Repr

/-- State of `FrameCadenceAdapterImpl` (lines 204-236). The passthrough
adapter is modelled by presence only (its rate statistics are outside the
claims under study); the callback by an opaque identifier. -/
structure FrameCadenceAdapterImpl where
  zero_hertz_screenshare_enabled : Bool
  passthrough_adapter : Bool
  zero_hertz_adapter : Option ZeroHertzAdapterMode
  zero_hertz_params : Option ZeroHertzModeParams
  current_adapter_mode : Option AdapterModeTag
  callback : Option Nat
  source_constraints : Option VideoTrackSourceConstraints
  has_reported_screenshare_frame_rate_umas : Bool
  frames_scheduled_for_processing : Int
deriving DecidableEq, Repr

/-- The `FrameCadenceAdapterImpl` constructor (lines 406-411):
`zero_hertz_screenshare_enabled_` is read from the field trial, every
other member starts at its declared default. -/
def FrameCadenceAdapterImpl.construct (field_trial_enabled : Bool) :
    FrameCadenceAdapterImpl :=
  { zero_hertz_screenshare_enabled := field_trial_enabled
    passthrough_adapter := false
    zero_hertz_adapter := none
    zero_hertz_params := none
    current_adapter_mode := none
    callback := none
    source_constraints := none
    has_reported_screenshare_frame_rate_umas := false
    frames_scheduled_for_processing := 0 }

/-- `FrameCadenceAdapterImpl::Initialize` (lines 413-417): bind the
callback, emplace the passthrough adapter and make it current. The body
performs no already-initialized check of any kind. -/
def FrameCadenceAdapterImpl.Initialize (s : FrameCadenceAdapterImpl) (callback : Nat) :
    FrameCadenceAdapterImpl :=
  { s with
    callback := some callback
    passthrough_adapter := true
    current_adapter_mode := some AdapterModeTag.passthrough }

/-- `FrameCadenceAdapterImpl::IsZeroHertzScreenshareEnabled` (lines
498-503): field trial on, constraints present with
`max_fps.value_or(-1) > 0` and `min_fps.value_or(-1) == 0`, and zero-hertz
params set. -/
def FrameCadenceAdapterImpl.IsZeroHertzScreenshareEnabled
    (s : FrameCadenceAdapterImpl) : Bool :=
  s.zero_hertz_screenshare_enabled &&
    (match s.source_constraints with
     | none => false
     | some constraints =>
         decide (constraints.max_fps.getD (-1) > 0) &&
         decide (constraints.min_fps.getD (-1) = 0)) &&
    s.zero_hertz_params.isSome

/-- `FrameCadenceAdapterImpl::MaybeReconfigureAdapters` (lines 505-522):
on an inactive-to-active edge emplace a fresh `ZeroHertzAdapterMode` with
`source_constraints_->max_fps.value()` and the stored params; on an
active-to-inactive edge destroy it; always repoint
`current_adapter_mode_`. -/
def FrameCadenceAdapterImpl.MaybeReconfigureAdapters
    (s : FrameCadenceAdapterImpl) (was_zero_hertz_enabled : Bool) :
    FrameCadenceAdapterImpl :=
  let is_zero_hertz_enabled := FrameCadenceAdapterImpl.IsZeroHertzScreenshareEnabled s
  if is_zero_hertz_enabled then
    let fresh := ZeroHertzAdapterMode.construct
      ((s.source_constraints.bind (·.max_fps)).getD 0) (s.zero_hertz_params.getD ⟨0⟩)
    let s :=
      if !was_zero_hertz_enabled then { s with zero_hertz_adapter := some fresh }
      else s
    { s with current_adapter_mode := some AdapterModeTag.zeroHertz }
  else
    let s :=
      if was_zero_hertz_enabled then { s with zero_hertz_adapter := none } else s
    { s with current_adapter_mode := some AdapterModeTag.passthrough }

/-- `FrameCadenceAdapterImpl::SetZeroHertzModeEnabled` (lines 419-427):
remember whether params were set, clear the UMA one-shot flag on an
absent-to-present transition, store the params and reconfigure. -/
def FrameCadenceAdapterImpl.SetZeroHertzModeEnabled
    (s : FrameCadenceAdapterImpl) (params : Option ZeroHertzModeParams) :
    FrameCadenceAdapterImpl :=
  let was_zero_hertz_enabled := s.zero_hertz_params.isSome
  let s :=
    if params.isSome && !was_zero_hertz_enabled then
      { s with has_reported_screenshare_frame_rate_umas := false }
    else s
  let s := { s with zero_hertz_params := params }
  FrameCadenceAdapterImpl.MaybeReconfigureAdapters s was_zero_hertz_enabled

/-- The task body of `FrameCadenceAdapterImpl::OnConstraintsChanged`
(lines 475-486): capture the activation state, store the constraints,
reconfigure. -/
def FrameCadenceAdapterImpl.OnConstraintsChangedOnQueue
    (s : FrameCadenceAdapterImpl) (constraints : VideoTrackSourceConstraints) :
    FrameCadenceAdapterImpl :=
  let was_zero_hertz_enabled := FrameCadenceAdapterImpl.IsZeroHertzScreenshareEnabled s
  let s := { s with source_constraints := some constraints }
  FrameCadenceAdapterImpl.MaybeReconfigureAdapters s was_zero_hertz_enabled

/-- The histogram names of `MaybeReportFrameRateConstraintUmas`, each
standing for the string literal `WebRTC.Screenshare.FrameRateConstraints.`
followed by `Exists`, `Min.Exists`, `Min.Value`, `Max.Exists`,
`Max.Value`, `MinUnset.Max`, `MinLessThanMax.Min`, `MinLessThanMax.Max`
and `60MinPlusMaxMinusOne` respectively. -/
inductive HistName where
  | constraintsExists
  | minExists
  | minValue
  | maxExists
  | maxValue
  | minUnsetMax
  | minLessThanMaxMin
  | minLessThanMaxMax
  | sixtyMinPlusMaxMinusOne
deriving DecidableEq, Repr

/-- One histogram emission of `MaybeReportFrameRateConstraintUmas`. Count
samples keep the raw (rational) fps value; the clamping integer conversion
lives in the external metrics macros. -/
inductive Emission where
  | histBool (name : HistName) (sample : Bool)
  | histCounts100 (name : HistName) (sample : Int)
  | histSparse (name : HistName) (sample : Int) (boundary : Int)
deriving DecidableEq, Repr

/-- `FrameCadenceAdapterImpl::MaybeReportFrameRateConstraintUmas`
(lines 524-576): one-shot on `has_reported_screenshare_frame_rate_umas_`,
nothing without zero-hertz params; then the constraint-shape histograms.
The `MinLessThanMax` counters are guarded by `min < max`; the sparse
`60MinPlusMaxMinusOne` enumeration is emitted whenever both bounds are
present (it sits outside that guard, lines 568-574). -/
def FrameCadenceAdapterImpl.MaybeReportFrameRateConstraintUmas
    (s : FrameCadenceAdapterImpl) : FrameCadenceAdapterImpl × List Emission :=
  if s.has_reported_screenshare_frame_rate_umas then (s, [])
  else
    let s := { s with has_reported_screenshare_frame_rate_umas := true }
    if !s.zero_hertz_params.isSome then (s, [])
    else
      let head :=
        [Emission.histBool HistName.constraintsExists s.source_constraints.isSome]
      match s.source_constraints with
      | none => (s, head)
      | some constraints =>
        let es := head ++
          [Emission.histBool HistName.minExists constraints.min_fps.isSome]
        let es := es ++
          (match constraints.min_fps with
           | some v => [Emission.histCounts100 HistName.minValue v]
           | none => [])
        let es := es ++
          [Emission.histBool HistName.maxExists constraints.max_fps.isSome]
        let es := es ++
          (match constraints.max_fps with
           | some v => [Emission.histCounts100 HistName.maxValue v]
           | none => [])
        let es := es ++
          (match constraints.min_fps, constraints.max_fps with
           | none, some max_fps =>
               [Emission.histCounts100 HistName.minUnsetMax max_fps]
           | some min_fps, some max_fps =>
               (if min_fps < max_fps then
                 [Emission.histCounts100 HistName.minLessThanMaxMin min_fps,
                  Emission.histCounts100 HistName.minLessThanMaxMax max_fps]
               else []) ++
               [Emission.histSparse HistName.sixtyMinPlusMaxMinusOne
                 (min_fps * 60 + max_fps - 1) (60 * 60 + 60 - 1)]
           | _, _ => [])
        (s, es)

/-- `FrameCadenceAdapterImpl::OnFrameOnMainQueue` (lines 489-495):
dispatch to the current adapter mode. Passthrough forwards the frame
straight to the callback without touching adapter state; zero-hertz runs
`ZeroHertzAdapterMode::OnFrame` on the stored mode. -/
def FrameCadenceAdapterImpl.OnFrameOnMainQueue (s : FrameCadenceAdapterImpl)
    (post_time : Int) (frames_scheduled_for_processing : Int) (frame : VideoFrame) :
    FrameCadenceAdapterImpl :=
  match s.current_adapter_mode with
  | some AdapterModeTag.zeroHertz =>
      match s.zero_hertz_adapter with
      | some mode =>
          let mode' := (ZeroHertzAdapterMode.OnFrame mode post_time
            frames_scheduled_for_processing frame).state
          { s with zero_hertz_adapter := some mode' }
      | none => s
  | _ => s

/-- Result of the queued task of `FrameCadenceAdapterImpl::OnFrame`: the
new state, the `frames_scheduled_for_processing` value the task passed to
`OnFrameOnMainQueue`, and the histogram emissions. -/
structure ImplFrameStep where
  state : FrameCadenceAdapterImpl
  passed_frames_scheduled : Int
  emissions : List Emission
deriving DecidableEq, Repr

/-- The task body posted by `FrameCadenceAdapterImpl::OnFrame` (lines
464-472): `fetch_sub(1)` on the atomic counter — whose return value is the
counter value immediately BEFORE the subtraction — then
`OnFrameOnMainQueue(post_time, that value, frame)` and
`MaybeReportFrameRateConstraintUmas()`. -/
def FrameCadenceAdapterImpl.OnFrameTask (s : FrameCadenceAdapterImpl)
    (post_time : Int) (frame : VideoFrame) : ImplFrameStep :=
  let frames_scheduled_for_processing := s.frames_scheduled_for_processing
  let s := { s with
    frames_scheduled_for_processing := s.frames_scheduled_for_processing - 1 }
  let s := FrameCadenceAdapterImpl.OnFrameOnMainQueue s post_time
    frames_scheduled_for_processing frame
  let report := FrameCadenceAdapterImpl.MaybeReportFrameRateConstraintUmas s
  ⟨report.1, frames_scheduled_for_processing, report.2⟩

/-- `FrameCadenceAdapterImpl::OnFrame` (lines 456-473) run to completion on
a quiescent queue: the network-thread `fetch_add(1)` followed by the queued
task body. -/
def FrameCadenceAdapterImpl.OnFrame (s : FrameCadenceAdapterImpl)
    (post_time : Int) (frame : VideoFrame) : ImplFrameStep :=
  let s := { s with
    frames_scheduled_for_processing := s.frames_scheduled_for_processing + 1 }
  FrameCadenceAdapterImpl.OnFrameTask s post_time frame

/-- An adapter operation of the traces of the temporal claims: a
`SetZeroHertzModeEnabled` call, a processed `OnConstraintsChanged`, or a
frame entering and being processed. -/
inductive AdapterOp where
  | setZeroHertzModeEnabled (params : Option ZeroHertzModeParams)
  | onConstraintsChanged (constraints : VideoTrackSourceConstraints)
  | onFrame (post_time : Int) (frame : VideoFrame)
deriving DecidableEq, Repr

/-- One adapter operation: the new state and the histograms it emitted. -/
def FrameCadenceAdapterImpl.stepOp (s : FrameCadenceAdapterImpl) (op : AdapterOp) :
    FrameCadenceAdapterImpl × List Emission :=
  match op with
  | AdapterOp.setZeroHertzModeEnabled params =>
      (FrameCadenceAdapterImpl.SetZeroHertzModeEnabled s params, [])
  | AdapterOp.onConstraintsChanged constraints =>
      (FrameCadenceAdapterImpl.OnConstraintsChangedOnQueue s constraints, [])
  | AdapterOp.onFrame post_time frame =>
      let r := FrameCadenceAdapterImpl.OnFrame s post_time frame
      (r.state, r.emissions)

/-- How many operations of the sequence emitted at least one constraint
histogram. -/
def FrameCadenceAdapterImpl.emissionEvents (s : FrameCadenceAdapterImpl) :
    List AdapterOp → Nat
  | [] => 0
  | op :: rest =>
      (if (FrameCadenceAdapterImpl.stepOp s op).2 ≠ [] then 1 else 0) +
        FrameCadenceAdapterImpl.emissionEvents (FrameCadenceAdapterImpl.stepOp s op).1
          rest

/-- How many operations of the sequence are `SetZeroHertzModeEnabled` calls
that move `zero_hertz_params_` from absent to present (the edges on which
line 424 re-arms the UMA one-shot). -/
def FrameCadenceAdapterImpl.armingTransitions (s : FrameCadenceAdapterImpl) :
    List AdapterOp → Nat
  | [] => 0
  | op :: rest =>
      (match op with
       | AdapterOp.setZeroHertzModeEnabled params =>
           if params.isSome && !s.zero_hertz_params.isSome then 1 else 0
       | _ => 0) +
        FrameCadenceAdapterImpl.armingTransitions
          (FrameCadenceAdapterImpl.stepOp s op).1 rest

/-- The frame `ProcessRepeatedFrameOnDelayedCadence` delivers for a given
front frame and scheduled delay: empty update rectangle, `timestamp_us`
shifted by `scheduled_delay.us` when positive, `ntp_time_ms` shifted by
`scheduled_delay.ms` when non-zero. Stated separately so the adjustment
theorems can relate the code to it. -/
def repeatAdjustedFrame (front : VideoFrame) (scheduled_delay : TimeDelta) :
    VideoFrame :=
  { timestamp_us :=
      if front.timestamp_us > 0 then front.timestamp_us + scheduled_delay.us
      else front.timestamp_us
    ntp_time_ms :=
      if front.ntp_time_ms ≠ 0 then front.ntp_time_ms + scheduled_delay.ms
      else front.ntp_time_ms
    update_rect := UpdateRect.MakeEmptyUpdate }

/-! Concrete states used as witnesses and counterexamples. -/

/-- A frame with positive timestamps and a non-trivial update rectangle. -/
def frameA : VideoFrame := ⟨1000, 2000, ⟨0, 0, 8, 8⟩⟩

/-- A second distinct frame. -/
def frameB : VideoFrame := ⟨5000, 6000, ⟨1, 1, 4, 4⟩⟩

/-- A frame whose NTP timestamp is negative (the `int64_t` field admits it)
and whose presentation timestamp is unset. -/
def frameNegNtp : VideoFrame := ⟨0, -1, ⟨0, 0, 8, 8⟩⟩

/-- A zero-hertz mode for `max_fps = 30` and one simulcast layer. -/
def modeEx : ZeroHertzAdapterMode := ZeroHertzAdapterMode.construct 30 ⟨1⟩

/-- `modeEx` after `OnFrame(frameA)`: generation 1, one queued frame. -/
def modeEx1 : ZeroHertzAdapterMode := (modeEx.OnFrame 0 1 frameA).state

/-- `modeEx1` after `OnFrame(frameB)`: generation 2, two queued frames,
while the delayed task posted for `frameA` is still outstanding. -/
def modeEx2 : ZeroHertzAdapterMode := (modeEx1.OnFrame 10 1 frameB).state

/-- `modeEx1` after its delayed processing fired: repeating on `frameA`. -/
def modeRepeat : ZeroHertzAdapterMode := (modeEx1.ProcessOnDelayedCadence).state

/-- A repeating zero-hertz mode whose repeat source is `frameNegNtp`. -/
def modeNegNtp : ZeroHertzAdapterMode :=
  { modeEx with
    queued_frames := [frameNegNtp]
    current_frame_id := 3
    is_repeating := true }

/-- An initialized adapter with the field trial enabled. -/
def implBase : FrameCadenceAdapterImpl :=
  (FrameCadenceAdapterImpl.construct true).Initialize 7

/-- `implBase` with zero-hertz params set and screenshare constraints
`min 0 / max 30`: zero-hertz mode is active. -/
def implActive : FrameCadenceAdapterImpl :=
  (implBase.SetZeroHertzModeEnabled (some ⟨1⟩)).OnConstraintsChangedOnQueue
    ⟨some 0, some 30⟩

/-- An adapter about to report constraint UMAs with `min = max = 30`. -/
def implBothThirty : FrameCadenceAdapterImpl :=
  { implBase with
    zero_hertz_params := some ⟨1⟩
    source_constraints := some ⟨some 30, some 30⟩ }

/-- Enable zero-hertz params, process a frame, disable, re-enable and
process another frame: the UMA one-shot runs twice. -/
def opsTwice : List AdapterOp :=
  [AdapterOp.setZeroHertzModeEnabled (some ⟨1⟩),
   AdapterOp.onFrame 0 frameA,
   AdapterOp.setZeroHertzModeEnabled none,
   AdapterOp.setZeroHertzModeEnabled (some ⟨1⟩),
   AdapterOp.onFrame 1 frameB]

/-- How many constraint-UMA reports the adapter can still make before the
next arming transition: 1 when the one-shot flag is down and zero-hertz
params are set, 0 otherwise. Bookkeeping for the emission-count bound. -/
def umaSlack (s : FrameCadenceAdapterImpl) : Nat :=
  if s.has_reported_screenshare_frame_rate_umas = false ∧
      s.zero_hertz_params.isSome = true then 1 else 0

/-! Theorems. -/

/-- C1 (counterexample): the delayed task `OnFrame` posts captures no frame
id, and `ProcessOnDelayedCadence` runs effectfully even though the frame
generation current at its posting (1) is stale by the time it fires
(`current_frame_id = 2` after a second frame): it delivers `frameA` and
changes the state, so it is not a no-op on a frame-id mismatch. -/
theorem initial_delayed_task_fires_despite_new_frames_cex :
    (modeEx.OnFrame 0 1 frameA).posted =
      [⟨ZhTask.processOnDelayedCadence, modeEx.frame_delay.ms⟩] ∧
    ZhTask.capturedFrameId ZhTask.processOnDelayedCadence = none ∧
    modeEx1.current_frame_id = 1 ∧
    modeEx2.current_frame_id = 2 ∧
    (modeEx2.ProcessOnDelayedCadence).sent = [frameA] ∧
    (modeEx2.ProcessOnDelayedCadence).state ≠ modeEx2 := by
  decide

/-- C1 (amended): every repeat task posted by `ScheduleRepeat` captures the
frame id it was scheduled for, and a `ProcessRepeatedFrameOnDelayedCadence`
invocation whose captured frame id differs from `current_frame_id` is a
complete no-op: no state change, no frame sent, no task posted. (The
initial task posted by `OnFrame` captures no frame id and runs
unconditionally.) -/
theorem repeat_task_captures_id_and_stale_is_noop
    (s : ZeroHertzAdapterMode) (frame_id : Int) (scheduled_delay : TimeDelta)
    (h : frame_id ≠ s.current_frame_id) :
    s.ProcessRepeatedFrameOnDelayedCadence frame_id scheduled_delay = ⟨s, [], []⟩ ∧
    ∀ p ∈ s.ScheduleRepeat frame_id, p.task.capturedFrameId = some frame_id := by
  constructor
  · unfold ZeroHertzAdapterMode.ProcessRepeatedFrameOnDelayedCadence
    simp [h]
  · intro p hp
    simp only [ZeroHertzAdapterMode.ScheduleRepeat, List.mem_singleton] at hp
    subst hp
    rfl

/-- C1 (witness): a concrete stale repeat invocation is a no-op. -/
theorem repeat_task_stale_is_noop_witness :
    (1 : Int) ≠ modeEx2.current_frame_id ∧
    modeEx2.ProcessRepeatedFrameOnDelayedCadence 1 ⟨33333⟩ = ⟨modeEx2, [], []⟩ :=
  ⟨by decide,
   (repeat_task_captures_id_and_stale_is_noop modeEx2 1 ⟨33333⟩ (by decide)).1⟩

/-- C2: the convergence flag computed by `ScheduleRepeat` is true iff every
enabled tracker is converged (disabled trackers never object; an empty
tracker vector is vacuously converged), and the posted repeat task carries
`kZeroHertzIdleRepeatRatePeriod` when the flag holds and `frame_delay`
otherwise (both as the captured `TimeDelta` and as the posted ms delay). -/
theorem schedule_repeat_convergence_flag_and_delay
    (s : ZeroHertzAdapterMode) (frame_id : Int) :
    (ZeroHertzAdapterMode.allOfTrackersConverged s.layer_trackers = true ↔
      ∀ t ∈ s.layer_trackers, ∀ b, t.quality_converged = some b → b = true) ∧
    ZeroHertzAdapterMode.allOfTrackersConverged [] = true ∧
    s.ScheduleRepeat frame_id =
      [⟨ZhTask.processRepeatedFrame frame_id
          (if ZeroHertzAdapterMode.allOfTrackersConverged s.layer_trackers
            then kZeroHertzIdleRepeatRatePeriod else s.frame_delay),
        (if ZeroHertzAdapterMode.allOfTrackersConverged s.layer_trackers
            then kZeroHertzIdleRepeatRatePeriod else s.frame_delay).ms⟩] := by
  refine ⟨?_, rfl, rfl⟩
  rw [ZeroHertzAdapterMode.allOfTrackersConverged, List.all_eq_true]
  constructor
  · intro hall t ht b hb
    have h := hall t ht
    rw [hb] at h
    simpa using h
  · intro h t ht
    cases hqc : t.quality_converged with
    | none => simp [hqc]
    | some b => simpa [hqc] using h t ht b hqc

/-- Helper: `UpdateLayerStatus(i, true)` on a disabled in-range tracker
enables it unconverged. -/
theorem updateLayerStatus_true_of_disabled (s : ZeroHertzAdapterMode) (i : Nat)
    (h : s.layer_trackers[i]? = some ⟨none⟩) :
    (s.UpdateLayerStatus i true).layer_trackers[i]? = some ⟨some false⟩ := by
  have hlen : i < s.layer_trackers.length := (List.getElem?_eq_some.mp h).1
  unfold ZeroHertzAdapterMode.UpdateLayerStatus
  rw [h]
  simp [List.getElem?_set, hlen]

/-- Helper: `UpdateLayerStatus(i, true)` on an enabled tracker is the
identity. -/
theorem updateLayerStatus_true_of_enabled (s : ZeroHertzAdapterMode) (i : Nat)
    (b : Bool) (h : s.layer_trackers[i]? = some ⟨some b⟩) :
    s.UpdateLayerStatus i true = s := by
  unfold ZeroHertzAdapterMode.UpdateLayerStatus
  rw [h]
  simp

/-- Helper: `UpdateLayerStatus(i, false)` disables an in-range tracker. -/
theorem updateLayerStatus_false_result (s : ZeroHertzAdapterMode) (i : Nat)
    (t : SpatialLayerTracker) (h : s.layer_trackers[i]? = some t) :
    (s.UpdateLayerStatus i false).layer_trackers[i]? = some ⟨none⟩ := by
  have hlen : i < s.layer_trackers.length := (List.getElem?_eq_some.mp h).1
  unfold ZeroHertzAdapterMode.UpdateLayerStatus
  rw [h]
  simp [List.getElem?_set, hlen]

/-- Helper: `UpdateLayerQualityConvergence(i, c)` sets the bit of an
enabled tracker. -/
theorem updateLayerQuality_of_enabled (s : ZeroHertzAdapterMode) (i : Nat)
    (b c : Bool) (h : s.layer_trackers[i]? = some ⟨some b⟩) :
    (s.UpdateLayerQualityConvergence i c).layer_trackers[i]? = some ⟨some c⟩ := by
  have hlen : i < s.layer_trackers.length := (List.getElem?_eq_some.mp h).1
  unfold ZeroHertzAdapterMode.UpdateLayerQualityConvergence
  rw [h]
  simp [List.getElem?_set, hlen]

/-- Helper: `UpdateLayerQualityConvergence(i, c)` on a disabled tracker is
the identity. -/
theorem updateLayerQuality_of_disabled (s : ZeroHertzAdapterMode) (i : Nat)
    (c : Bool) (h : s.layer_trackers[i]? = some ⟨none⟩) :
    s.UpdateLayerQualityConvergence i c = s := by
  unfold ZeroHertzAdapterMode.UpdateLayerQualityConvergence
  rw [h]
  simp

/-- C8: layer-status transitions for an in-range index: enabling a disabled
tracker makes it enabled-not-converged, enabling an enabled tracker changes
nothing, disabling always disables, convergence updates apply only to
enabled trackers and are dropped for disabled ones, and the sequence
(disable, set-converged, enable) leaves the layer enabled and
not-converged. -/
theorem layer_status_and_convergence_transitions
    (s : ZeroHertzAdapterMode) (i : Nat) (c : Bool)
    (h : i < s.layer_trackers.length) :
    (s.layer_trackers[i]? = some ⟨none⟩ →
      (s.UpdateLayerStatus i true).layer_trackers[i]? = some ⟨some false⟩) ∧
    (∀ b, s.layer_trackers[i]? = some ⟨some b⟩ → s.UpdateLayerStatus i true = s) ∧
    (s.UpdateLayerStatus i false).layer_trackers[i]? = some ⟨none⟩ ∧
    (∀ b, s.layer_trackers[i]? = some ⟨some b⟩ →
      (s.UpdateLayerQualityConvergence i c).layer_trackers[i]? = some ⟨some c⟩) ∧
    (s.layer_trackers[i]? = some ⟨none⟩ → s.UpdateLayerQualityConvergence i c = s) ∧
    (((s.UpdateLayerStatus i false).UpdateLayerQualityConvergence i
        true).UpdateLayerStatus i true).layer_trackers[i]? = some ⟨some false⟩ := by
  obtain ⟨t, ht⟩ : ∃ t, s.layer_trackers[i]? = some t :=
    ⟨_, List.getElem?_eq_getElem h⟩
  have hdis : (s.UpdateLayerStatus i false).layer_trackers[i]? = some ⟨none⟩ :=
    updateLayerStatus_false_result s i t ht
  refine ⟨?_, ?_, hdis, ?_, ?_, ?_⟩
  · intro hnone
    exact updateLayerStatus_true_of_disabled s i hnone
  · intro b hb
    exact updateLayerStatus_true_of_enabled s i b hb
  · intro b hb
    exact updateLayerQuality_of_enabled s i b c hb
  · intro hnone
    exact updateLayerQuality_of_disabled s i c hnone
  · rw [updateLayerQuality_of_disabled (s.UpdateLayerStatus i false) i true hdis]
    exact updateLayerStatus_true_of_disabled (s.UpdateLayerStatus i false) i hdis

/-- C8 (witness): the transition theorem applied to a one-layer mode at
index 0, projecting the (disable, set-converged, enable) conclusion. -/
theorem layer_status_and_convergence_transitions_witness :
    (((modeEx.UpdateLayerStatus 0 false).UpdateLayerQualityConvergence 0
        true).UpdateLayerStatus 0 true).layer_trackers[0]? = some ⟨some false⟩ :=
  (layer_status_and_convergence_transitions modeEx 0 true (by decide)).2.2.2.2.2

/-- C3: one `OnFrame` call resets every enabled tracker to not-converged
and leaves disabled trackers disabled, removes the single stale queued
frame exactly when `is_repeating` was set, appends the new frame,
increments `current_frame_id` by exactly 1, clears `is_repeating`, sends
nothing, and posts exactly one delayed `ProcessOnDelayedCadence` task with
delay `frame_delay`. -/
theorem on_frame_resets_layers_and_schedules
    (s : ZeroHertzAdapterMode) (post_time frames_scheduled : Int)
    (frame : VideoFrame)
    (hrep : s.is_repeating = true → s.queued_frames.length = 1) :
    ((s.OnFrame post_time frames_scheduled frame).state.layer_trackers.length =
      s.layer_trackers.length) ∧
    (∀ (i : Nat) (t : SpatialLayerTracker), s.layer_trackers[i]? = some t →
      (s.OnFrame post_time frames_scheduled frame).state.layer_trackers[i]? =
        some (if t.quality_converged.isSome then (⟨some false⟩ : SpatialLayerTracker)
          else t)) ∧
    ((s.OnFrame post_time frames_scheduled frame).state.queued_frames =
      if s.is_repeating then [frame] else s.queued_frames ++ [frame]) ∧
    ((s.OnFrame post_time frames_scheduled frame).state.current_frame_id =
      s.current_frame_id + 1) ∧
    ((s.OnFrame post_time frames_scheduled frame).state.is_repeating = false) ∧
    ((s.OnFrame post_time frames_scheduled frame).sent = []) ∧
    ((s.OnFrame post_time frames_scheduled frame).posted =
      [⟨ZhTask.processOnDelayedCadence, s.frame_delay.ms⟩]) := by
  refine ⟨by simp [ZeroHertzAdapterMode.OnFrame], ?_, ?_, rfl, rfl, rfl, rfl⟩
  · intro i t ht
    simp [ZeroHertzAdapterMode.OnFrame, List.getElem?_map, ht]
  · by_cases hr : s.is_repeating
    · obtain ⟨x, hx⟩ := List.length_eq_one.mp (hrep hr)
      simp [ZeroHertzAdapterMode.OnFrame, hr, hx]
    · simp [ZeroHertzAdapterMode.OnFrame, hr]

/-- C3 (witness): `OnFrame` on a repeating one-frame mode: the stale repeat
source is replaced by the new frame and one delayed task is posted. -/
theorem on_frame_resets_layers_and_schedules_witness :
    (modeNegNtp.is_repeating = true → modeNegNtp.queued_frames.length = 1) ∧
    (modeNegNtp.OnFrame 20 1 frameB).state.queued_frames = [frameB] ∧
    (modeNegNtp.OnFrame 20 1 frameB).posted =
      [⟨ZhTask.processOnDelayedCadence, modeNegNtp.frame_delay.ms⟩] := by
  refine ⟨by decide, ?_, ?_⟩
  · have h :=
      (on_frame_resets_layers_and_schedules modeNegNtp 20 1 frameB
        (by decide)).2.2.1
    simpa [modeNegNtp] using h
  · exact
      (on_frame_resets_layers_and_schedules modeNegNtp 20 1 frameB
        (by decide)).2.2.2.2.2.2

/-- C4 (counterexample): the NTP shift of a repeated frame is guarded by
`ntp_time_ms != 0`, not by `ntp_time_ms > 0`: a repeat of a frame with
`ntp_time_ms = -1` (not positive) is still shifted, to `-1 + 1000 = 999`,
contradicting "increased ... exactly when ntp_time_ms > 0". -/
theorem repeat_ntp_shift_without_positive_ntp_cex :
    frameNegNtp.ntp_time_ms = -1 ∧
    ¬ 0 < frameNegNtp.ntp_time_ms ∧
    modeNegNtp.queued_frames = [frameNegNtp] ∧
    (modeNegNtp.ProcessRepeatedFrameOnDelayedCadence 3
        kZeroHertzIdleRepeatRatePeriod).sent.map (fun f => f.ntp_time_ms) =
      [999] := by
  decide

/-- C4 (amended): a non-stale repeat invocation delivers the front frame
with an emptied update rectangle, `timestamp_us` shifted by the scheduled
delay exactly when positive and `ntp_time_ms` shifted exactly when
non-zero; the delivered frame replaces the front of the queue, so with
positive source timestamps and positive delays each successive delivery
strictly exceeds the prior one by the scheduled delay. -/
theorem repeat_adjusts_front_frame_and_is_monotone
    (s : ZeroHertzAdapterMode) (frame_id : Int) (scheduled_delay : TimeDelta)
    (front : VideoFrame) (rest : List VideoFrame)
    (hq : s.queued_frames = front :: rest)
    (hid : frame_id = s.current_frame_id) :
    ((s.ProcessRepeatedFrameOnDelayedCadence frame_id scheduled_delay).sent =
      [repeatAdjustedFrame front scheduled_delay]) ∧
    ((s.ProcessRepeatedFrameOnDelayedCadence frame_id
        scheduled_delay).state.queued_frames =
      repeatAdjustedFrame front scheduled_delay :: rest) ∧
    ((repeatAdjustedFrame front scheduled_delay).update_rect =
      UpdateRect.MakeEmptyUpdate) ∧
    (0 < front.timestamp_us → 0 < scheduled_delay.us →
      (repeatAdjustedFrame front scheduled_delay).timestamp_us =
        front.timestamp_us + scheduled_delay.us ∧
      front.timestamp_us <
        (repeatAdjustedFrame front scheduled_delay).timestamp_us ∧
      0 < (repeatAdjustedFrame front scheduled_delay).timestamp_us) ∧
    (front.timestamp_us ≤ 0 →
      (repeatAdjustedFrame front scheduled_delay).timestamp_us =
        front.timestamp_us) ∧
    (0 < front.ntp_time_ms → 0 < scheduled_delay.ms →
      (repeatAdjustedFrame front scheduled_delay).ntp_time_ms =
        front.ntp_time_ms + scheduled_delay.ms ∧
      front.ntp_time_ms < (repeatAdjustedFrame front scheduled_delay).ntp_time_ms ∧
      0 < (repeatAdjustedFrame front scheduled_delay).ntp_time_ms) ∧
    (front.ntp_time_ms = 0 →
      (repeatAdjustedFrame front scheduled_delay).ntp_time_ms = 0) := by
  subst hid
  have key :
      s.ProcessRepeatedFrameOnDelayedCadence s.current_frame_id scheduled_delay =
        ⟨{ s with queued_frames :=
             repeatAdjustedFrame front scheduled_delay :: rest },
         [repeatAdjustedFrame front scheduled_delay],
         ZeroHertzAdapterMode.ScheduleRepeat
           { s with queued_frames :=
               repeatAdjustedFrame front scheduled_delay :: rest }
           s.current_frame_id⟩ := by
    unfold ZeroHertzAdapterMode.ProcessRepeatedFrameOnDelayedCadence
    rw [hq]
    by_cases h1 : front.timestamp_us > 0 <;> by_cases h2 : front.ntp_time_ms = 0 <;>
      simp [repeatAdjustedFrame, h1, h2]
  refine ⟨by rw [key], by rw [key], rfl, ?_, ?_, ?_, ?_⟩
  · intro hts hd
    refine ⟨by simp [repeatAdjustedFrame, hts], ?_, ?_⟩ <;>
      simp [repeatAdjustedFrame, hts] <;> omega
  · intro hts
    simp [repeatAdjustedFrame]
    omega
  · intro hntp hd
    have hne : front.ntp_time_ms ≠ 0 := by omega
    refine ⟨by simp [repeatAdjustedFrame, hne], ?_, ?_⟩ <;>
      simp [repeatAdjustedFrame, hne] <;> omega
  · intro hzero
    simp [repeatAdjustedFrame, hzero]

/-- C4 (witness): repeating `frameA` (timestamps 1000 us / 2000 ms) with
the frame delay of a 30 fps mode shifts the delivered timestamps to
34333 us / 2033 ms and empties the update rectangle. -/
theorem repeat_adjusts_front_frame_witness :
    modeRepeat.queued_frames = [frameA] ∧
    (1 : Int) = modeRepeat.current_frame_id ∧
    (modeRepeat.ProcessRepeatedFrameOnDelayedCadence 1 ⟨33333⟩).sent =
      [⟨34333, 2033, ⟨0, 0, 0, 0⟩⟩] := by
  refine ⟨by decide, by decide, ?_⟩
  have h :=
    (repeat_adjusts_front_frame_and_is_monotone modeRepeat 1 ⟨33333⟩ frameA []
      (by decide) (by decide)).1
  rw [h]
  decide

/-- Helper: `MaybeReconfigureAdapters` never touches the zero-hertz params,
the UMA one-shot flag, the source constraints or the frame counter. -/
theorem maybeReconfigure_fields (s : FrameCadenceAdapterImpl)
    (was_zero_hertz_enabled : Bool) :
    ((s.MaybeReconfigureAdapters was_zero_hertz_enabled).zero_hertz_params =
      s.zero_hertz_params) ∧
    ((s.MaybeReconfigureAdapters
        was_zero_hertz_enabled).has_reported_screenshare_frame_rate_umas =
      s.has_reported_screenshare_frame_rate_umas) ∧
    ((s.MaybeReconfigureAdapters
        was_zero_hertz_enabled).frames_scheduled_for_processing =
      s.frames_scheduled_for_processing) ∧
    ((s.MaybeReconfigureAdapters was_zero_hertz_enabled).source_constraints =
      s.source_constraints) := by
  unfold FrameCadenceAdapterImpl.MaybeReconfigureAdapters
  by_cases hz : s.IsZeroHertzScreenshareEnabled = true <;>
    cases was_zero_hertz_enabled <;> simp [hz]

/-- Helper: `MaybeReportFrameRateConstraintUmas` returns the input state
with the one-shot flag raised, whatever branch it takes. -/
theorem maybeReport_sets_flag (s : FrameCadenceAdapterImpl) :
    (s.MaybeReportFrameRateConstraintUmas).1 =
      { s with has_reported_screenshare_frame_rate_umas := true } := by
  obtain ⟨en, pa, zh, zp, cam, cb, sc, rep, n⟩ := s
  cases rep <;> cases zp <;> rcases sc with _ | ⟨mn, mx⟩ <;> rfl

/-- Helper: `MaybeReportFrameRateConstraintUmas` emits a histogram only
when the one-shot flag is down and zero-hertz params are set. -/
theorem maybeReport_emits (s : FrameCadenceAdapterImpl) :
    (s.MaybeReportFrameRateConstraintUmas).2 ≠ [] →
      s.has_reported_screenshare_frame_rate_umas = false ∧
      s.zero_hertz_params.isSome = true := by
  obtain ⟨en, pa, zh, zp, cam, cb, sc, rep, n⟩ := s
  cases rep <;> cases zp <;>
    simp [FrameCadenceAdapterImpl.MaybeReportFrameRateConstraintUmas]

/-- Helper: `OnFrameOnMainQueue` only ever rewrites `zero_hertz_adapter`. -/
theorem onFrameOnMainQueue_fields (s : FrameCadenceAdapterImpl)
    (post_time n : Int) (frame : VideoFrame) :
    ((FrameCadenceAdapterImpl.OnFrameOnMainQueue s post_time n
        frame).zero_hertz_params = s.zero_hertz_params) ∧
    ((FrameCadenceAdapterImpl.OnFrameOnMainQueue s post_time n
        frame).has_reported_screenshare_frame_rate_umas =
      s.has_reported_screenshare_frame_rate_umas) ∧
    ((FrameCadenceAdapterImpl.OnFrameOnMainQueue s post_time n
        frame).frames_scheduled_for_processing =
      s.frames_scheduled_for_processing) ∧
    ((FrameCadenceAdapterImpl.OnFrameOnMainQueue s post_time n
        frame).source_constraints = s.source_constraints) := by
  unfold FrameCadenceAdapterImpl.OnFrameOnMainQueue
  split
  · split <;> simp
  · simp

/-- C5 (counterexample): with exactly one pending frame the task passes 1,
the counter value before the decrement, while the value observed after the
decrement (the number of still-pending frame tasks) is 0. -/
theorem on_frame_passes_count_before_decrement_cex :
    (implBase.OnFrame 0 frameA).passed_frames_scheduled = 1 ∧
    (implBase.OnFrame 0 frameA).state.frames_scheduled_for_processing = 0 ∧
    (implBase.OnFrame 0 frameA).passed_frames_scheduled ≠
      (implBase.OnFrame 0 frameA).state.frames_scheduled_for_processing := by
  decide

/-- C5 (amended): the reposted task decrements the counter and passes
`fetch_sub`'s return value — the count observed BEFORE the decrement,
i.e. the number of pending frame tasks including the one being processed —
to `OnFrameOnMainQueue`; equivalently, the passed value is one more than
the counter left after the task ran. -/
theorem on_frame_task_passes_pre_decrement_count
    (s : FrameCadenceAdapterImpl) (post_time : Int) (frame : VideoFrame) :
    ((s.OnFrameTask post_time frame).passed_frames_scheduled =
      s.frames_scheduled_for_processing) ∧
    ((s.OnFrameTask post_time frame).state.frames_scheduled_for_processing =
      s.frames_scheduled_for_processing - 1) ∧
    ((s.OnFrame post_time frame).passed_frames_scheduled =
      s.frames_scheduled_for_processing + 1) ∧
    ((s.OnFrame post_time frame).passed_frames_scheduled =
      (s.OnFrame post_time frame).state.frames_scheduled_for_processing + 1) := by
  have htask : ∀ (x : FrameCadenceAdapterImpl),
      (x.OnFrameTask post_time frame).passed_frames_scheduled =
        x.frames_scheduled_for_processing ∧
      (x.OnFrameTask post_time frame).state.frames_scheduled_for_processing =
        x.frames_scheduled_for_processing - 1 := by
    intro x
    refine ⟨rfl, ?_⟩
    unfold FrameCadenceAdapterImpl.OnFrameTask
    simp [maybeReport_sets_flag, (onFrameOnMainQueue_fields _ _ _ _).2.2.1]
  have hofr : s.OnFrame post_time frame =
      FrameCadenceAdapterImpl.OnFrameTask
        { s with frames_scheduled_for_processing :=
            s.frames_scheduled_for_processing + 1 } post_time frame := rfl
  refine ⟨(htask s).1, (htask s).2, ?_, ?_⟩
  · rw [hofr, (htask _).1]
  · rw [hofr, (htask _).1, (htask _).2]
    dsimp only
    omega

/-- C9 (counterexample): `Initialize` contains no already-initialized
check: a second call does not fail — it succeeds and rebinds the callback
(from 1 to 2), observably changing the adapter. -/
theorem second_initialize_succeeds_cex :
    ((FrameCadenceAdapterImpl.construct true).Initialize 1).Initialize 2 ≠
      (FrameCadenceAdapterImpl.construct true).Initialize 1 ∧
    (((FrameCadenceAdapterImpl.construct true).Initialize 1).Initialize 2).callback =
      some 2 := by
  decide

/-- C9 (amended): `Initialize` binds the callback, emplaces the passthrough
adapter and makes it the current mode; the code performs no
AlreadyInitialized check, so a later call simply re-initializes — calling
`Initialize` twice is the same as calling it once with the second
callback. -/
theorem initialize_binds_and_rebinding_succeeds
    (s : FrameCadenceAdapterImpl) (cb1 cb2 : Nat) :
    ((s.Initialize cb1).callback = some cb1) ∧
    ((s.Initialize cb1).passthrough_adapter = true) ∧
    ((s.Initialize cb1).current_adapter_mode = some AdapterModeTag.passthrough) ∧
    ((s.Initialize cb1).Initialize cb2 = s.Initialize cb2) := by
  exact ⟨rfl, rfl, rfl, rfl⟩

/-- C10: a constraints change processed while zero-hertz stays active keeps
the existing `ZeroHertzAdapterMode` object untouched (so its `max_fps`,
`frame_delay`, `queued_frames`, `current_frame_id`, `is_repeating` and
`layer_trackers` are all unchanged) and only repoints the current mode; a
fresh mode — built from the new `max_fps` — appears only on an
inactive-to-active edge. -/
theorem constraints_change_keeps_zero_hertz_adapter
    (s : FrameCadenceAdapterImpl) (constraints : VideoTrackSourceConstraints)
    (hwas : s.IsZeroHertzScreenshareEnabled = true)
    (hnow : FrameCadenceAdapterImpl.IsZeroHertzScreenshareEnabled
        { s with source_constraints := some constraints } = true) :
    ((s.OnConstraintsChangedOnQueue constraints).zero_hertz_adapter =
      s.zero_hertz_adapter) ∧
    ((s.OnConstraintsChangedOnQueue constraints).current_adapter_mode =
      some AdapterModeTag.zeroHertz) ∧
    (∀ s2 : FrameCadenceAdapterImpl,
      s2.IsZeroHertzScreenshareEnabled = false →
      FrameCadenceAdapterImpl.IsZeroHertzScreenshareEnabled
          { s2 with source_constraints := some constraints } = true →
      (s2.OnConstraintsChangedOnQueue constraints).zero_hertz_adapter =
        some (ZeroHertzAdapterMode.construct (constraints.max_fps.getD 0)
          (s2.zero_hertz_params.getD ⟨0⟩))) := by
  refine ⟨?_, ?_, ?_⟩
  · simp [FrameCadenceAdapterImpl.OnConstraintsChangedOnQueue,
      FrameCadenceAdapterImpl.MaybeReconfigureAdapters, hwas, hnow]
  · simp [FrameCadenceAdapterImpl.OnConstraintsChangedOnQueue,
      FrameCadenceAdapterImpl.MaybeReconfigureAdapters, hwas, hnow]
  · intro s2 hoff hon
    simp [FrameCadenceAdapterImpl.OnConstraintsChangedOnQueue,
      FrameCadenceAdapterImpl.MaybeReconfigureAdapters, hoff, hon]

/-- C10 (witness): with zero-hertz active under `min 0 / max 30`, changing
the constraints to `min 0 / max 15` keeps the stored mode object. -/
theorem constraints_change_keeps_zero_hertz_adapter_witness :
    (implActive.OnConstraintsChangedOnQueue ⟨some 0, some 15⟩).zero_hertz_adapter =
      implActive.zero_hertz_adapter :=
  (constraints_change_keeps_zero_hertz_adapter implActive ⟨some 0, some 15⟩
    (by decide) (by decide)).1

/-- C7 (counterexample): with `min_fps = max_fps = 30` (so not
`min < max`), the sparse `60MinPlusMaxMinusOne` histogram is still emitted
(value 1829, boundary 3659) while the `MinLessThanMax` counters are not:
the sparse emission is not conditional on `min < max`. -/
theorem sparse_uma_without_min_lt_max_cex :
    ¬ (30 : Int) < 30 ∧
    Emission.histSparse HistName.sixtyMinPlusMaxMinusOne 1829 3659 ∈
      (implBothThirty.MaybeReportFrameRateConstraintUmas).2 ∧
    Emission.histCounts100 HistName.minLessThanMaxMin 30 ∉
      (implBothThirty.MaybeReportFrameRateConstraintUmas).2 := by
  decide

/-- C7 (amended): when both bounds are present, the sparse enumeration
histogram with value `min_fps * 60 + max_fps - 1` and boundary
`60 * 60 + 60 - 1` is always emitted, while the `MinLessThanMax.Min` and
`MinLessThanMax.Max` counters are emitted if and only if
`min_fps < max_fps`. -/
theorem constraint_uma_sparse_and_min_less_than_max
    (s : FrameCadenceAdapterImpl) (min_fps max_fps : Int)
    (hflag : s.has_reported_screenshare_frame_rate_umas = false)
    (hparams : s.zero_hertz_params.isSome = true)
    (hc : s.source_constraints = some ⟨some min_fps, some max_fps⟩) :
    (Emission.histSparse HistName.sixtyMinPlusMaxMinusOne
        (min_fps * 60 + max_fps - 1) (60 * 60 + 60 - 1) ∈
      (s.MaybeReportFrameRateConstraintUmas).2) ∧
    ((Emission.histCounts100 HistName.minLessThanMaxMin min_fps ∈
        (s.MaybeReportFrameRateConstraintUmas).2) ↔ min_fps < max_fps) ∧
    ((Emission.histCounts100 HistName.minLessThanMaxMax max_fps ∈
        (s.MaybeReportFrameRateConstraintUmas).2) ↔ min_fps < max_fps) := by
  by_cases hlt : min_fps < max_fps <;>
    refine ⟨?_, ?_, ?_⟩ <;>
      (unfold FrameCadenceAdapterImpl.MaybeReportFrameRateConstraintUmas
       rw [hflag]
       simp [hc, hparams, hlt])

/-- C7 (witness): the amended theorem at `min = max = 30`: the sparse
histogram is present and the `MinLessThanMax.Min` membership is
equivalent to the (false) comparison `30 < 30`. -/
theorem constraint_uma_sparse_witness :
    Emission.histSparse HistName.sixtyMinPlusMaxMinusOne (30 * 60 + 30 - 1)
        (60 * 60 + 60 - 1) ∈
      (implBothThirty.MaybeReportFrameRateConstraintUmas).2 :=
  (constraint_uma_sparse_and_min_less_than_max implBothThirty 30 30
    (by decide) (by decide) (by decide)).1

/-- Helper: `SetZeroHertzModeEnabled` stores the params and clears the UMA
one-shot flag exactly on an absent-to-present transition. -/
theorem setZeroHertz_fields (s : FrameCadenceAdapterImpl)
    (params : Option ZeroHertzModeParams) :
    ((s.SetZeroHertzModeEnabled params).zero_hertz_params = params) ∧
    ((s.SetZeroHertzModeEnabled params).has_reported_screenshare_frame_rate_umas =
      if params.isSome && !s.zero_hertz_params.isSome then false
      else s.has_reported_screenshare_frame_rate_umas) := by
  unfold FrameCadenceAdapterImpl.SetZeroHertzModeEnabled
  rcases params with _ | pv <;> rcases hzp : s.zero_hertz_params with _ | zv <;>
    exact ⟨by simp [hzp, (maybeReconfigure_fields _ _).1],
      by simp [hzp, (maybeReconfigure_fields _ _).2.1]⟩

/-- Helper: the task body of `OnConstraintsChanged` touches neither the
zero-hertz params nor the UMA one-shot flag. -/
theorem onConstraintsChanged_fields (s : FrameCadenceAdapterImpl)
    (constraints : VideoTrackSourceConstraints) :
    ((s.OnConstraintsChangedOnQueue constraints).zero_hertz_params =
      s.zero_hertz_params) ∧
    ((s.OnConstraintsChangedOnQueue
        constraints).has_reported_screenshare_frame_rate_umas =
      s.has_reported_screenshare_frame_rate_umas) := by
  unfold FrameCadenceAdapterImpl.OnConstraintsChangedOnQueue
  exact ⟨by simp [(maybeReconfigure_fields _ _).1],
    by simp [(maybeReconfigure_fields _ _).2.1]⟩

/-- Helper: after a processed frame the one-shot flag is up, the params are
unchanged, and an emission implies the flag was down with params set. -/
theorem onFrame_flag_params (s : FrameCadenceAdapterImpl) (post_time : Int)
    (frame : VideoFrame) :
    ((s.OnFrame post_time frame).state.has_reported_screenshare_frame_rate_umas =
      true) ∧
    ((s.OnFrame post_time frame).state.zero_hertz_params = s.zero_hertz_params) ∧
    ((s.OnFrame post_time frame).emissions ≠ [] →
      s.has_reported_screenshare_frame_rate_umas = false ∧
      s.zero_hertz_params.isSome = true) := by
  have hstate : ∀ x : FrameCadenceAdapterImpl,
      (x.OnFrameTask post_time frame).state =
        { FrameCadenceAdapterImpl.OnFrameOnMainQueue
            { x with frames_scheduled_for_processing :=
                x.frames_scheduled_for_processing - 1 }
            post_time x.frames_scheduled_for_processing frame with
          has_reported_screenshare_frame_rate_umas := true } := by
    intro x
    unfold FrameCadenceAdapterImpl.OnFrameTask
    simp [maybeReport_sets_flag]
  have hemts : ∀ x : FrameCadenceAdapterImpl,
      (x.OnFrameTask post_time frame).emissions =
        (FrameCadenceAdapterImpl.MaybeReportFrameRateConstraintUmas
          (FrameCadenceAdapterImpl.OnFrameOnMainQueue
            { x with frames_scheduled_for_processing :=
                x.frames_scheduled_for_processing - 1 }
            post_time x.frames_scheduled_for_processing frame)).2 := by
    intro x
    unfold FrameCadenceAdapterImpl.OnFrameTask
    simp
  have hofr : s.OnFrame post_time frame =
      FrameCadenceAdapterImpl.OnFrameTask
        { s with frames_scheduled_for_processing :=
            s.frames_scheduled_for_processing + 1 } post_time frame := rfl
  refine ⟨?_, ?_, ?_⟩
  · rw [hofr, hstate]
  · rw [hofr, hstate]
    simp [(onFrameOnMainQueue_fields _ _ _ _).1]
  · rw [hofr, hemts]
    intro h
    have h2 := maybeReport_emits _ h
    rcases h2 with ⟨h2a, h2b⟩
    rw [(onFrameOnMainQueue_fields _ _ _ _).2.1] at h2a
    rw [(onFrameOnMainQueue_fields _ _ _ _).1] at h2b
    exact ⟨h2a, h2b⟩

/-- Helper: one-step slack bound for `SetZeroHertzModeEnabled`: the slack
grows only on an arming (absent-to-present) transition. -/
theorem umaSlack_setZeroHertz (s : FrameCadenceAdapterImpl)
    (params : Option ZeroHertzModeParams) :
    umaSlack (s.SetZeroHertzModeEnabled params) ≤
      (if params.isSome && !s.zero_hertz_params.isSome then 1 else 0) +
        umaSlack s := by
  unfold umaSlack
  rw [(setZeroHertz_fields s params).1, (setZeroHertz_fields s params).2]
  rcases params with _ | pv <;>
    rcases hzp : s.zero_hertz_params with _ | zv <;>
      rcases hrep : s.has_reported_screenshare_frame_rate_umas <;>
        simp [hzp, hrep]

/-- Helper: over any operation sequence, the number of emission events is
bounded by the number of arming transitions plus the starting slack. -/
theorem emissionEvents_le_arming (ops : List AdapterOp) :
    ∀ s : FrameCadenceAdapterImpl,
      FrameCadenceAdapterImpl.emissionEvents s ops ≤
        FrameCadenceAdapterImpl.armingTransitions s ops + umaSlack s := by
  induction ops with
  | nil =>
    intro s
    simp [FrameCadenceAdapterImpl.emissionEvents,
      FrameCadenceAdapterImpl.armingTransitions]
  | cons op rest ih =>
    intro s
    cases op with
    | setZeroHertzModeEnabled p =>
      have h := ih (s.SetZeroHertzModeEnabled p)
      have hb := umaSlack_setZeroHertz s p
      simp [FrameCadenceAdapterImpl.emissionEvents,
        FrameCadenceAdapterImpl.armingTransitions,
        FrameCadenceAdapterImpl.stepOp] at hb h ⊢
      omega
    | onConstraintsChanged c =>
      have h := ih (s.OnConstraintsChangedOnQueue c)
      have hslack : umaSlack (s.OnConstraintsChangedOnQueue c) = umaSlack s := by
        unfold umaSlack
        rw [(onConstraintsChanged_fields s c).1, (onConstraintsChanged_fields s c).2]
      simp [FrameCadenceAdapterImpl.emissionEvents,
        FrameCadenceAdapterImpl.armingTransitions,
        FrameCadenceAdapterImpl.stepOp] at h ⊢
      omega
    | onFrame pt f =>
      have h := ih ((s.OnFrame pt f).state)
      have hslack0 : umaSlack ((s.OnFrame pt f).state) = 0 := by
        unfold umaSlack
        rw [(onFrame_flag_params s pt f).1]
        simp
      rw [hslack0, Nat.add_zero] at h
      by_cases he : (s.OnFrame pt f).emissions = []
      · simp [FrameCadenceAdapterImpl.emissionEvents,
          FrameCadenceAdapterImpl.armingTransitions,
          FrameCadenceAdapterImpl.stepOp, he] at h ⊢
        omega
      · have hsl : umaSlack s = 1 := by
          have h2 := (onFrame_flag_params s pt f).2.2 he
          unfold umaSlack
          simp [h2.1, h2.2]
        simp [FrameCadenceAdapterImpl.emissionEvents,
          FrameCadenceAdapterImpl.armingTransitions,
          FrameCadenceAdapterImpl.stepOp, he, hsl] at h ⊢
        omega

/-- C6 (counterexample): enabling zero-hertz params, processing a frame,
disabling and re-enabling the params, then processing another frame emits
the constraint UMAs twice in one adapter lifetime (the absent-to-present
transition re-arms the one-shot). -/
theorem constraint_umas_twice_in_lifetime_cex :
    FrameCadenceAdapterImpl.emissionEvents implBase opsTwice = 2 ∧
    ¬ FrameCadenceAdapterImpl.emissionEvents implBase opsTwice ≤ 1 := by
  decide

/-- C6 (amended): starting from a freshly initialized adapter, the
constraint UMAs are emitted at most once per absent-to-present transition
of `zero_hertz_params` (each such transition re-arms the one-shot), and
every operation that emits them runs with `zero_hertz_params` set. -/
theorem constraint_umas_once_per_arming_transition
    (field_trial_enabled : Bool) (callback : Nat) (ops : List AdapterOp) :
    (FrameCadenceAdapterImpl.emissionEvents
        ((FrameCadenceAdapterImpl.construct field_trial_enabled).Initialize
          callback) ops ≤
      FrameCadenceAdapterImpl.armingTransitions
        ((FrameCadenceAdapterImpl.construct field_trial_enabled).Initialize
          callback) ops) ∧
    (∀ (s : FrameCadenceAdapterImpl) (op : AdapterOp),
      (s.stepOp op).2 ≠ [] → s.zero_hertz_params.isSome = true) := by
  constructor
  · have h := emissionEvents_le_arming ops
      ((FrameCadenceAdapterImpl.construct field_trial_enabled).Initialize callback)
    have hslack : umaSlack
        ((FrameCadenceAdapterImpl.construct field_trial_enabled).Initialize
          callback) = 0 := by
      unfold umaSlack FrameCadenceAdapterImpl.construct
        FrameCadenceAdapterImpl.Initialize
      simp
    omega
  · intro s op h
    cases op with
    | setZeroHertzModeEnabled p => simp [FrameCadenceAdapterImpl.stepOp] at h
    | onConstraintsChanged c => simp [FrameCadenceAdapterImpl.stepOp] at h
    | onFrame pt f =>
      exact ((onFrame_flag_params s pt f).2.2 h).2

end Webrtc
